import Mathlib

/-!
Verification development for the muse-db movie recommendation engine.

The definitions below are a shallow embedding of the TypeScript source:
  * the data model (src/types, the SQL schema) becomes Lean structures;
  * the Postgres tables become lists held in a `DB` record, with the
    `user_picks` table kept newest-first (the code always reads it with
    ORDER BY created_at DESC);
  * each query in src/db/queries.ts becomes a pure function over `DB`;
  * the picker (src/services/picker.ts) and the route handlers become
    functions threading the `DB` value explicitly; `Math.random()` draws
    are passed in as an explicit parameter `r`;
  * JavaScript number arithmetic is modelled over ℚ where the source only
    compares and counts, and over ℝ for the weight computation, whose
    `Math.log10` has no rational counterpart.
-/

namespace MuseDB

/-- Row of the movies table, as typed in src/types (interface MovieRow).
Nullable columns become Option. -/
structure MovieRow where
  id : ℕ
  tmdb_id : ℕ
  title : String
  original_title : String
  year : ℤ
  runtime : Option ℤ
  synopsis : Option String
  poster_path : Option String
  vote_average : ℚ
  vote_count : ℕ
  original_language : String
  adult : Bool
  deriving Repr, DecidableEq

/-- API-facing movie shape (interface Movie). -/
structure Movie where
  id : ℕ
  title : String
  year : ℤ
  runtime : ℤ
  synopsis : String
  posterUrl : String
  voteAverage : ℚ
  genres : List String
  deriving Repr, DecidableEq

/-- Genre lookup row (interface Genre). -/
structure Genre where
  id : ℕ
  name : String
  deriving Repr, DecidableEq

/-- The five era buckets (type Era). -/
inductive Era
  | e1980_1989
  | e1990_1999
  | e2000_2009
  | e2010_2019
  | e2020_now
  deriving Repr, DecidableEq

/-- Filter specification (interface PickFilters); every field optional. -/
structure PickFilters where
  genreIds : Option (List ℕ) := none
  era : Option Era := none
  origin : Option (List String) := none
  minDuration : Option ℤ := none
  maxDuration : Option ℤ := none
  deriving Repr, DecidableEq

/-- Row of the user_picks table (the created_at column is represented by
list position: the DB keeps picks newest-first). -/
structure PickRow where
  session_id : String
  movie_id : ℕ
  filters : PickFilters
  deriving Repr, DecidableEq

/-- Database state: the four tables the engine touches. -/
structure DB where
  movies : List MovieRow
  movie_genres : List (ℕ × ℕ)
  genres : List Genre
  user_picks : List PickRow
  deriving Repr, DecidableEq

/-- Selection constants from src/config.ts. -/
def config.selection.minVoteCount : ℕ := 500

/-- Selection constants from src/config.ts (5.5 as a rational). -/
def config.selection.minVoteAverage : ℚ := 11 / 2

/-- Selection constants from src/config.ts. -/
def config.selection.minRuntime : ℤ := 60

/-- Selection constants from src/config.ts. -/
def config.selection.recentPicksLimit : ℕ := 20

/-- Selection constants from src/config.ts (0.3 as a rational). -/
def config.selection.firstPickTopPercentile : ℚ := 3 / 10

/-- Image base URL from src/config.ts. -/
def config.tmdbImageBaseUrl : String := "https://image.tmdb.org/t/p/w500"

/-- eraToYearRange from src/db/queries.ts: start year and optional end year
(the 2020-now bucket is open-ended). -/
def eraToYearRange (era : Era) : ℤ × Option ℤ :=
  match era with
  | .e1980_1989 => (1980, some 1989)
  | .e1990_1999 => (1990, some 1999)
  | .e2000_2009 => (2000, some 2009)
  | .e2010_2019 => (2010, some 2019)
  | .e2020_now => (2020, none)

/-- SQL comparison m.runtime >= x: NULL compares as not-true. -/
def runtimeGE (m : MovieRow) (x : ℤ) : Bool :=
  match m.runtime with
  | some rt => decide (x ≤ rt)
  | none => false

/-- SQL comparison m.runtime <= x: NULL compares as not-true. -/
def runtimeLE (m : MovieRow) (x : ℤ) : Bool :=
  match m.runtime with
  | some rt => decide (rt ≤ x)
  | none => false

/-- Year condition generated for an era filter in getCandidateMovies. -/
def eraCond (era : Era) (m : MovieRow) : Bool :=
  match eraToYearRange era with
  | (start, some stop) => decide (start ≤ m.year) && decide (m.year ≤ stop)
  | (start, none) => decide (start ≤ m.year)

/-- The WHERE clause of the getCandidateMovies query, as a predicate on a
movies row.  The first five conjuncts are the unconditional quality floors;
the remaining ones mirror the dynamically appended conditions, including the
JavaScript truthiness tests guarding them (`if (filters.minDuration)` skips
the clause when the field is absent or 0; empty arrays are skipped via
explicit length tests in the source).  The genre INNER JOIN plus
SELECT DISTINCT m.* is expressed as an existential over movie_genres rows,
movie ids being the primary key. -/
def candidateCond (filters : PickFilters) (excludeMovieIds : List ℕ) (db : DB)
    (m : MovieRow) : Bool :=
  (m.adult == false) &&
  m.runtime.isSome &&
  runtimeGE m config.selection.minRuntime &&
  decide (config.selection.minVoteCount ≤ m.vote_count) &&
  decide (config.selection.minVoteAverage ≤ m.vote_average) &&
  (match filters.era with
   | some era => eraCond era m
   | none => true) &&
  (match filters.minDuration with
   | some d => if d = 0 then true else runtimeGE m d
   | none => true) &&
  (match filters.maxDuration with
   | some d => if d = 0 then true else runtimeLE m d
   | none => true) &&
  (match filters.origin with
   | some origin =>
     if origin.length = 0 then true
     else (origin.map String.toLower).contains m.original_language
   | none => true) &&
  (if excludeMovieIds.length = 0 then true
   else !(excludeMovieIds.contains m.id)) &&
  (match filters.genreIds with
   | some gs =>
     if gs.length = 0 then true
     else db.movie_genres.any (fun mg => mg.1 == m.id && gs.contains mg.2)
   | none => true)

/-- getCandidateMovies from src/db/queries.ts: rows of the movies table
satisfying the assembled WHERE clause, capped by LIMIT 1000. -/
def getCandidateMovies (db : DB) (filters : PickFilters)
    (excludeMovieIds : List ℕ) : List MovieRow :=
  (db.movies.filter (candidateCond filters excludeMovieIds db)).take 1000

/-- getMoviesGenres from src/db/queries.ts: the genre-name map for the
requested movie ids, read back as a total function (a lookup miss yields [],
matching the `genresMap.get(id) || []` reads at every call site). -/
def getMoviesGenres (db : DB) (movieIds : List ℕ) : ℕ → List String :=
  fun movieId =>
    if movieId ∈ movieIds then
      (db.movie_genres.filter (fun mg => mg.1 == movieId)).filterMap
        (fun mg => (db.genres.find? (fun g => g.id == mg.2)).map (fun g => g.name))
    else []

/-- getRecentPickMovieIds from src/db/queries.ts: movie ids of the most
recent picks of the session, capped at recentPicksLimit (user_picks is kept
newest-first, matching ORDER BY created_at DESC). -/
def getRecentPickMovieIds (db : DB) (sessionId : String) : List ℕ :=
  ((db.user_picks.filter (fun p => p.session_id == sessionId)).take
      config.selection.recentPicksLimit).map (fun p => p.movie_id)

/-- isFirstPickForSession from src/db/queries.ts: COUNT(*) = 0. -/
def isFirstPickForSession (db : DB) (sessionId : String) : Bool :=
  (db.user_picks.filter (fun p => p.session_id == sessionId)).length = 0

/-- recordPick from src/db/queries.ts: INSERT a row into user_picks
(prepended, since the list is kept newest-first). -/
def recordPick (db : DB) (sessionId : String) (movieId : ℕ)
    (filters : PickFilters) : DB :=
  { db with user_picks := ⟨sessionId, movieId, filters⟩ :: db.user_picks }

/-- toMovie, as written identically in src/services/picker.ts,
src/routes/candidates.ts and src/routes/search.ts.  `row.runtime || 0` and
`row.synopsis || ''` coincide with Option.getD because the JavaScript falsy
non-null cases (0, the empty string) are mapped to themselves; the poster
conditional `row.poster_path ? base + p : ''` is falsy both on null and on
the empty string, which the match below reflects. -/
def toMovie (row : MovieRow) (genres : List String) : Movie :=
  { id := row.id
    title := row.title
    year := row.year
    runtime := row.runtime.getD 0
    synopsis := row.synopsis.getD ""
    posterUrl :=
      match row.poster_path with
      | some p => if p = "" then "" else config.tmdbImageBaseUrl ++ p
      | none => ""
    voteAverage := row.vote_average
    genres := genres }

/-- Weighted candidate (interface WeightedCandidate): a movie row paired
with its computed weight and its resolved genre names. -/
structure WeightedCandidate where
  movie : MovieRow
  weight : ℝ
  genres : List String

/-- calculateWeight from src/services/picker.ts:
(vote_average / 10) * log10(vote_count + 1). -/
noncomputable def calculateWeight (movie : MovieRow) : ℝ :=
  ((movie.vote_average : ℝ) / 10) * Real.logb 10 ((movie.vote_count : ℝ) + 1)

/-- The accumulation loop of weightedRandomSelect: the running value starts
at the scaled random draw, each step subtracts the candidate weight and
returns the candidate once the running value is ≤ 0. -/
noncomputable def selectLoop : List WeightedCandidate → ℝ → Option WeightedCandidate
  | [], _ => none
  | c :: rest, random =>
    if random - c.weight ≤ 0 then some c else selectLoop rest (random - c.weight)

/-- weightedRandomSelect from src/services/picker.ts.  The Math.random()
draw is the explicit parameter r, multiplied by the total weight exactly as
in the source; if the loop runs off the end the source falls back to the
last element of the (non-empty) array. -/
noncomputable def weightedRandomSelect :
    List WeightedCandidate → ℝ → Option WeightedCandidate
  | [], _ => none
  | c :: rest, r =>
    match selectLoop (c :: rest) (r * ((c :: rest).map (fun x => x.weight)).sum) with
    | some x => some x
    | none => some ((c :: rest).getLast (by simp))

/-- Order used by the first-pick bias sort: the comparator
(a, b) => b.weight - a.weight places a before b iff b.weight ≤ a.weight. -/
def weightDescOrder (a b : WeightedCandidate) : Prop := b.weight ≤ a.weight

noncomputable instance : DecidableRel weightDescOrder :=
  fun a b => Real.decidableLE b.weight a.weight

instance : IsTotal WeightedCandidate weightDescOrder :=
  ⟨fun a b => le_total b.weight a.weight⟩

instance : IsTrans WeightedCandidate weightDescOrder :=
  ⟨fun _ _ _ hab hbc => le_trans hbc hab⟩

/-- Step 5 of pickMovie in src/services/picker.ts: when the session has no
prior pick and more than 10 candidates remain, sort descending by weight
(a stable sort, as guaranteed for Array.prototype.sort) and keep the top
ceil(count * firstPickTopPercentile) entries. -/
noncomputable def applyFirstPickBias (cands : List WeightedCandidate)
    (isFirstPick : Bool) : List WeightedCandidate :=
  if isFirstPick = true ∧ 10 < cands.length then
    (List.insertionSort weightDescOrder cands).take
      (⌈(cands.length : ℚ) * config.selection.firstPickTopPercentile⌉).toNat
  else cands

/-- pickMovie from src/services/picker.ts, with the database threaded
explicitly: returns the chosen movie (or none) together with the database
state after the call. -/
noncomputable def pickMovie (db : DB) (sessionId : String)
    (filters : PickFilters) (r : ℝ) : Option Movie × DB :=
  let recentPickIds := getRecentPickMovieIds db sessionId
  let candidates := getCandidateMovies db filters recentPickIds
  if candidates.length = 0 then (none, db)
  else
    let genresMap := getMoviesGenres db (candidates.map (fun m => m.id))
    let weightedCandidates : List WeightedCandidate := candidates.map
      (fun movie => ⟨movie, calculateWeight movie, genresMap movie.id⟩)
    let isFirstPick := isFirstPickForSession db sessionId
    let finalCandidates := applyFirstPickBias weightedCandidates isFirstPick
    match weightedRandomSelect finalCandidates r with
    | none => (none, db)
    | some selected =>
      (some (toMovie selected.movie selected.genres),
       recordPick db sessionId selected.movie.id filters)

/-- Response body of POST /pick (interface PickResponse). -/
structure PickResponse where
  movie : Option Movie
  message : Option String := none
  deriving Repr, DecidableEq

/-- Outcome of the POST /pick handler: a 400 validation reply, or a 200
reply together with the database state after the call. -/
inductive PickRouteResult
  | reply400 (error : String)
  | reply200 (resp : PickResponse) (db : DB)
  deriving DecidableEq

/-- Request body of POST /pick (interface PickRequest). -/
structure PickRequest where
  sessionId : String
  filters : PickFilters
  deriving Repr, DecidableEq

/-- The POST /pick handler from src/routes/pick.ts: session-id and duration
validation, then pickMovie; a null pick is rendered as a null movie plus the
fixed no-match message. -/
noncomputable def pickHandler (db : DB) (req : PickRequest) (r : ℝ) :
    PickRouteResult :=
  if req.sessionId.length < 1 ∨ 255 < req.sessionId.length then
    .reply400 "Invalid session ID format."
  else if (match req.filters.minDuration with
           | some d => decide (d < 60)
           | none => false : Bool) then
    .reply400 "minDuration must be at least 60 minutes."
  else if (match req.filters.maxDuration with
           | some d => decide (d < 60)
           | none => false : Bool) then
    .reply400 "maxDuration must be at least 60 minutes."
  else
    match pickMovie db req.sessionId req.filters r with
    | (none, db') =>
      .reply200 ⟨none, some "No movies match your criteria. Try broader filters."⟩ db'
    | (some movie, db') => .reply200 ⟨some movie, none⟩ db'

/-- Request body of POST /candidates (interface CandidatesRequest). -/
structure CandidatesRequest where
  filters : PickFilters
  limit : Option ℕ := none
  sessionId : Option String := none
  excludeMovieIds : Option (List ℕ) := none
  deriving Repr, DecidableEq

/-- Exclusion ids assembled by the POST /candidates handler: the recency
set of the session (when a session id is supplied; the empty string is
falsy in `sessionId ? ... : []`) unioned with the client-supplied ids via
new Set (dedup keeps one copy of each id; iteration order of the set is
irrelevant downstream, where the list is only tested for membership and
emptiness). -/
def candidatesExcludeIds (db : DB) (req : CandidatesRequest) : List ℕ :=
  let recentIds :=
    match req.sessionId with
    | some sid => if sid = "" then [] else getRecentPickMovieIds db sid
    | none => []
  let clientExcludeIds := req.excludeMovieIds.getD []
  (recentIds ++ clientExcludeIds).dedup

/-- The POST /candidates handler from src/routes/candidates.ts.  The
`candidates.sort(() => Math.random() - 0.5)` shuffle is modelled by the
explicit parameter `shuffle` (any rearrangement the runtime may produce);
the handler returns the movie list and the (unchanged) database. -/
def candidatesHandler (db : DB) (req : CandidatesRequest)
    (shuffle : List MovieRow → List MovieRow) : List Movie × DB :=
  let limit := req.limit.getD 30
  let excludeIds := candidatesExcludeIds db req
  let candidates := getCandidateMovies db req.filters excludeIds
  if candidates.length = 0 then ([], db)
  else
    let shuffled := shuffle candidates
    let selected := shuffled.take (min limit shuffled.length)
    let genresMap := getMoviesGenres db (selected.map (fun m => m.id))
    (selected.map (fun movie => toMovie movie (genresMap movie.id)), db)

/-! Concrete fixtures used by witnesses and counterexamples. -/

/-- A catalog-valid movie row passing every quality floor. -/
def row1 : MovieRow :=
  { id := 1
    tmdb_id := 101
    title := "Alpha"
    original_title := "Alpha"
    year := 2000
    runtime := some 120
    synopsis := some "a film"
    poster_path := some "/alpha.jpg"
    vote_average := 7
    vote_count := 1000
    original_language := "en"
    adult := false }

/-- A second catalog-valid movie row, distinct from row1. -/
def row2 : MovieRow :=
  { row1 with id := 2, tmdb_id := 102, title := "Beta" }

/-- row1 with zero votes and a positive rating. -/
def row0 : MovieRow :=
  { row1 with vote_average := 8, vote_count := 0 }

/-- row1 with every nullable column set to NULL. -/
def rowNulls : MovieRow :=
  { row1 with runtime := none, synopsis := none, poster_path := none }

/-- row1 with an empty-string poster path (non-NULL). -/
def rowEmptyPoster : MovieRow :=
  { row1 with poster_path := some "" }

/-- One-movie database with no genres and no recorded picks. -/
def db1 : DB := ⟨[row1], [], [], []⟩

/-- Empty database. -/
def db0 : DB := ⟨[], [], [], []⟩

/-- Zero-weight candidate wrapping row1. -/
noncomputable def zc1 : WeightedCandidate := ⟨row1, 0, []⟩

/-- Zero-weight candidate wrapping row2. -/
noncomputable def zc2 : WeightedCandidate := ⟨row2, 0, []⟩

/-- Eleven copies of zc1: a pool just over the first-pick bias threshold. -/
noncomputable def elevenCands : List WeightedCandidate := List.replicate 11 zc1

/-! Helper lemmas shared by several claims. -/

lemma selectLoop_mem {l : List WeightedCandidate} {r : ℝ} {c : WeightedCandidate}
    (h : selectLoop l r = some c) : c ∈ l := by
  induction l generalizing r with
  | nil => simp [selectLoop] at h
  | cons a t ih =>
    unfold selectLoop at h
    by_cases hle : r - a.weight ≤ 0
    · rw [if_pos hle] at h
      simp only [Option.some.injEq] at h
      subst h
      exact List.mem_cons_self a t
    · rw [if_neg hle] at h
      exact List.mem_cons_of_mem a (ih h)

lemma weightedRandomSelect_mem {l : List WeightedCandidate} {r : ℝ}
    {c : WeightedCandidate} (h : weightedRandomSelect l r = some c) : c ∈ l := by
  match l with
  | [] => simp [weightedRandomSelect] at h
  | a :: t =>
    simp only [weightedRandomSelect] at h
    cases hsl : selectLoop (a :: t) (r * ((a :: t).map (fun x => x.weight)).sum) with
    | some x =>
      rw [hsl] at h
      simp only [Option.some.injEq] at h
      subst h
      exact selectLoop_mem hsl
    | none =>
      rw [hsl] at h
      simp only [Option.some.injEq] at h
      subst h
      exact List.getLast_mem _

lemma weightedRandomSelect_all_zero (c : WeightedCandidate)
    (rest : List WeightedCandidate) (r : ℝ)
    (hz : ∀ x ∈ c :: rest, x.weight = 0) :
    weightedRandomSelect (c :: rest) r = some c := by
  have hsum : (((c :: rest).map (fun x => x.weight)).sum : ℝ) = 0 := by
    apply List.sum_eq_zero
    intro x hx
    obtain ⟨y, hy, rfl⟩ := List.mem_map.1 hx
    exact hz y hy
  have hc : c.weight = 0 := hz c (List.mem_cons_self c rest)
  simp only [weightedRandomSelect, selectLoop]
  rw [hsum, mul_zero, hc, if_pos (by norm_num)]

lemma applyFirstPickBias_mem {cands : List WeightedCandidate} {b : Bool}
    {x : WeightedCandidate} (h : x ∈ applyFirstPickBias cands b) : x ∈ cands := by
  unfold applyFirstPickBias at h
  by_cases hc : b = true ∧ 10 < cands.length
  · rw [if_pos hc] at h
    exact (List.mem_insertionSort weightDescOrder).1 (List.mem_of_mem_take h)
  · rwa [if_neg hc] at h

lemma applyFirstPickBias_of_le_ten {cands : List WeightedCandidate} {b : Bool}
    (h : cands.length ≤ 10) : applyFirstPickBias cands b = cands := by
  unfold applyFirstPickBias
  rw [if_neg]
  rintro ⟨-, hgt⟩
  omega

lemma weightedRandomSelect_zero_draw (c : WeightedCandidate)
    (rest : List WeightedCandidate) (hw : 0 ≤ c.weight) :
    weightedRandomSelect (c :: rest) 0 = some c := by
  simp only [weightedRandomSelect, selectLoop]
  rw [zero_mul, if_pos (by linarith)]

lemma candidateCond_not_excluded {filters : PickFilters} {ex : List ℕ} {db : DB}
    {m : MovieRow} (h : candidateCond filters ex db m = true) : m.id ∉ ex := by
  unfold candidateCond at h
  simp only [Bool.and_eq_true] at h
  have hx := h.1.2
  by_cases hlen : ex.length = 0
  · rw [List.length_eq_zero.mp hlen]
    exact List.not_mem_nil m.id
  · rw [if_neg hlen] at hx
    simpa using hx

lemma getCandidateMovies_db1 :
    getCandidateMovies db1 ({} : PickFilters) [] = [row1] := by
  norm_num [getCandidateMovies, db1, row1, candidateCond, runtimeGE,
    config.selection.minRuntime, config.selection.minVoteCount,
    config.selection.minVoteAverage, List.filter]

lemma calculateWeight_nonneg {m : MovieRow} (h : 0 ≤ m.vote_average) :
    0 ≤ calculateWeight m := by
  unfold calculateWeight
  apply mul_nonneg
  · positivity
  · apply Real.logb_nonneg (by norm_num)
    have : (0 : ℝ) ≤ (m.vote_count : ℝ) := Nat.cast_nonneg _
    linarith

/-! Claim theorems. -/

/-- C2 (counterexample): a movie with voteCount = 0 and voteAverage = 8 > 0
has weight (8/10) * log10(0 + 1) = 0, refuting both the claimed strict
positivity under voteCount ≥ 0 ∧ voteAverage > 0 and the claimed
equivalence weight = 0 ↔ voteAverage = 0. -/
theorem calculateWeight_zero_at_zero_votes :
    0 < row0.vote_average ∧ row0.vote_count = 0 ∧
    calculateWeight row0 = 0 ∧ row0.vote_average ≠ 0 := by
  refine ⟨by norm_num [row0, row1], rfl, ?_, by norm_num [row0, row1]⟩
  unfold calculateWeight
  norm_num [row0, row1, Real.logb_one]

/-- C2 (amended): the weight (voteAverage / 10) * log10(voteCount + 1) is
strictly positive whenever voteCount ≥ 1 and voteAverage > 0, and it is zero
exactly when voteAverage = 0 or voteCount = 0. -/
theorem calculateWeight_pos_and_zero_iff (m : MovieRow) :
    (1 ≤ m.vote_count → 0 < m.vote_average → 0 < calculateWeight m) ∧
    (calculateWeight m = 0 ↔ m.vote_average = 0 ∨ m.vote_count = 0) := by
  constructor
  · intro hvc hva
    unfold calculateWeight
    apply mul_pos
    · have : (0 : ℝ) < (m.vote_average : ℝ) := by exact_mod_cast hva
      linarith
    · apply Real.logb_pos (by norm_num)
      have : (1 : ℝ) ≤ (m.vote_count : ℝ) := by exact_mod_cast hvc
      linarith
  · unfold calculateWeight
    rw [mul_eq_zero, div_eq_zero_iff]
    constructor
    · rintro ((h | h) | h)
      · exact Or.inl (by exact_mod_cast h)
      · norm_num at h
      · rw [Real.logb_eq_zero] at h
        have hpos : (0 : ℝ) ≤ (m.vote_count : ℝ) := Nat.cast_nonneg _
        rcases h with h | h | h | h | h | h
        · norm_num at h
        · norm_num at h
        · norm_num at h
        · exact absurd h (by linarith)
        · exact Or.inr (by exact_mod_cast (by linarith : (m.vote_count : ℝ) = 0))
        · exact absurd h (by linarith)
    · rintro (h | h)
      · exact Or.inl (Or.inl (by exact_mod_cast h))
      · rw [h]
        norm_num [Real.logb_one]

/-- Witness for the amended C2 at the concrete row1
(voteCount = 1000, voteAverage = 7). -/
theorem calculateWeight_pos_and_zero_iff_witness :
    1 ≤ row1.vote_count ∧ 0 < row1.vote_average ∧ 0 < calculateWeight row1 :=
  ⟨by norm_num [row1], by norm_num [row1],
   (calculateWeight_pos_and_zero_iff row1).1 (by norm_num [row1])
     (by norm_num [row1])⟩

/-- C4: every row returned by the candidate fetch satisfies the fixed
quality floors, for every filter specification and exclusion set: not
adult, runtime present and at least minRuntime (= 60), vote count at least
minVoteCount (= 500) and vote average at least minVoteAverage (= 5.5). -/
theorem getCandidateMovies_quality_floors (db : DB) (filters : PickFilters)
    (excludeMovieIds : List ℕ) (m : MovieRow)
    (h : m ∈ getCandidateMovies db filters excludeMovieIds) :
    m.adult = false ∧
    (∃ rt, m.runtime = some rt ∧ config.selection.minRuntime ≤ rt) ∧
    config.selection.minVoteCount ≤ m.vote_count ∧
    config.selection.minVoteAverage ≤ m.vote_average := by
  have hm : m ∈ db.movies.filter (candidateCond filters excludeMovieIds db) :=
    List.mem_of_mem_take h
  have hc : candidateCond filters excludeMovieIds db m = true :=
    List.of_mem_filter hm
  unfold candidateCond at hc
  simp only [Bool.and_eq_true, beq_iff_eq, decide_eq_true_eq] at hc
  obtain ⟨⟨⟨⟨⟨⟨⟨⟨⟨⟨hadult, hsome⟩, hge⟩, hvc⟩, hva⟩, -⟩, -⟩, -⟩, -⟩, -⟩, -⟩ := hc
  obtain ⟨rt, hrt⟩ := Option.isSome_iff_exists.mp hsome
  refine ⟨hadult, ⟨rt, hrt, ?_⟩, hvc, hva⟩
  unfold runtimeGE at hge
  rw [hrt] at hge
  simpa using hge

/-- Witness for C4: row1 is in the candidate fetch of db1 and satisfies all
four floors. -/
theorem getCandidateMovies_quality_floors_witness :
    row1 ∈ getCandidateMovies db1 {} [] ∧
    row1.adult = false ∧
    (∃ rt, row1.runtime = some rt ∧ config.selection.minRuntime ≤ rt) ∧
    config.selection.minVoteCount ≤ row1.vote_count ∧
    config.selection.minVoteAverage ≤ row1.vote_average :=
  ⟨by rw [getCandidateMovies_db1]; exact List.mem_singleton.mpr rfl,
   getCandidateMovies_quality_floors db1 {} [] row1
     (by rw [getCandidateMovies_db1]; exact List.mem_singleton.mpr rfl)⟩

/-- C9: an empty genreIds array and an empty origin array each add no
constraint in getCandidateMovies — the result is the same as with the field
absent, for every database, filter specification and exclusion set. -/
theorem getCandidateMovies_empty_array_filters (db : DB) (f : PickFilters)
    (ex : List ℕ) :
    getCandidateMovies db { f with genreIds := some [] } ex =
      getCandidateMovies db { f with genreIds := none } ex ∧
    getCandidateMovies db { f with origin := some [] } ex =
      getCandidateMovies db { f with origin := none } ex :=
  ⟨rfl, rfl⟩

/-- C10 (counterexample): a stored empty-string poster path is not NULL,
yet toMovie renders posterUrl as the empty string, not as the image base
concatenated with the (empty) fragment — the JavaScript conditional tests
truthiness, and the empty string is falsy. -/
theorem toMovie_empty_string_poster :
    rowEmptyPoster.poster_path = some "" ∧
    (toMovie rowEmptyPoster []).posterUrl = "" ∧
    (toMovie rowEmptyPoster []).posterUrl ≠ config.tmdbImageBaseUrl ++ "" := by
  refine ⟨rfl, rfl, by decide⟩

/-- C10 (amended): toMovie renders a NULL runtime as 0, a NULL synopsis as
the empty string, and a NULL or empty-string poster path as an empty
posterUrl; for a non-empty poster path the posterUrl is the configured
image base concatenated with the stored fragment. -/
theorem toMovie_null_field_rendering (row : MovieRow) (genres : List String) :
    (row.runtime = none → (toMovie row genres).runtime = 0) ∧
    (row.synopsis = none → (toMovie row genres).synopsis = "") ∧
    (row.poster_path = none ∨ row.poster_path = some "" →
      (toMovie row genres).posterUrl = "") ∧
    (∀ p, row.poster_path = some p → p ≠ "" →
      (toMovie row genres).posterUrl = config.tmdbImageBaseUrl ++ p) := by
  refine ⟨fun h => ?_, fun h => ?_, fun h => ?_, fun p hp hne => ?_⟩
  · simp [toMovie, h]
  · simp [toMovie, h]
  · rcases h with h | h <;> simp [toMovie, h]
  · simp [toMovie, hp, hne]

/-- Witness for the amended C10: all-NULL nullable fields render as the
documented defaults, and row1's poster path renders as base ++ fragment. -/
theorem toMovie_null_field_rendering_witness :
    ((toMovie rowNulls []).runtime = 0 ∧
     (toMovie rowNulls []).synopsis = "" ∧
     (toMovie rowNulls []).posterUrl = "") ∧
    (toMovie row1 []).posterUrl = config.tmdbImageBaseUrl ++ "/alpha.jpg" :=
  ⟨⟨(toMovie_null_field_rendering rowNulls []).1 rfl,
    (toMovie_null_field_rendering rowNulls []).2.1 rfl,
    (toMovie_null_field_rendering rowNulls []).2.2.1 (Or.inl rfl)⟩,
   (toMovie_null_field_rendering row1 []).2.2.2 "/alpha.jpg" rfl (by decide)⟩

lemma weightedRandomSelect_isSome (c : WeightedCandidate)
    (rest : List WeightedCandidate) (r : ℝ) :
    (weightedRandomSelect (c :: rest) r).isSome := by
  simp only [weightedRandomSelect]
  cases hsl : selectLoop (c :: rest) (r * ((c :: rest).map (fun x => x.weight)).sum) <;>
    simp

/-- C1 (counterexample): with two distinct all-zero-weight candidates, no
random draw whatsoever makes the sampler return the second one — the T = 0
fallback deterministically yields the first candidate, so the choice is not
uniform over the list. -/
theorem weightedRandomSelect_all_zero_not_uniform :
    zc1 ≠ zc2 ∧ ¬ ∃ r : ℝ, weightedRandomSelect [zc1, zc2] r = some zc2 := by
  have hne : zc1 ≠ zc2 := by
    intro h
    have := congrArg (fun c => c.movie.id) h
    simp [zc1, zc2, row1, row2] at this
  refine ⟨hne, ?_⟩
  rintro ⟨r, hr⟩
  have hz : ∀ x ∈ [zc1, zc2], x.weight = 0 := by
    intro x hx
    simp only [List.mem_cons, List.not_mem_nil, or_false] at hx
    rcases hx with rfl | rfl <;> rfl
  rw [weightedRandomSelect_all_zero zc1 [zc2] r hz] at hr
  simp only [Option.some.injEq] at hr
  exact hne hr

/-- C1 (amended): on a non-empty candidate list the sampler is total —
never a division (there is none to divide), never divergence, never an
empty result: it always returns some member of the list.  When every
weight is zero, however, it deterministically returns the first candidate,
for every random draw, rather than a uniform random member. -/
theorem weightedRandomSelect_total_on_nonempty (candidates : List WeightedCandidate)
    (r : ℝ) (h : candidates ≠ []) :
    (∃ c ∈ candidates, weightedRandomSelect candidates r = some c) ∧
    ((∀ c ∈ candidates, c.weight = 0) →
      weightedRandomSelect candidates r = some (candidates.head h)) := by
  cases candidates with
  | nil => exact absurd rfl h
  | cons c rest =>
    constructor
    · obtain ⟨x, hx⟩ :=
        Option.isSome_iff_exists.mp (weightedRandomSelect_isSome c rest r)
      exact ⟨x, weightedRandomSelect_mem hx, hx⟩
    · intro hz
      exact weightedRandomSelect_all_zero c rest r hz

/-- Witness for the amended C1: a singleton all-zero-weight list yields its
head. -/
theorem weightedRandomSelect_total_on_nonempty_witness :
    ([zc1] : List WeightedCandidate) ≠ [] ∧ (∀ c ∈ [zc1], c.weight = 0) ∧
    weightedRandomSelect [zc1] 0 = some zc1 := by
  have hz : ∀ c ∈ [zc1], c.weight = 0 := by
    intro c hc
    rw [List.mem_singleton] at hc
    rw [hc]
    rfl
  exact ⟨by simp, hz,
    (weightedRandomSelect_total_on_nonempty [zc1] 0 (by simp)).2 hz⟩

/-- C7: when isFirstPick holds and more than 10 candidates remain, the bias
stage keeps exactly ceil(n * P) candidates (30 for n = 100 at the configured
P = 0.3), and every retained weight is at least every discarded weight. -/
theorem applyFirstPickBias_top_percentile (cands : List WeightedCandidate)
    (h : 10 < cands.length) :
    (applyFirstPickBias cands true).length =
      (⌈(cands.length : ℚ) * config.selection.firstPickTopPercentile⌉).toNat ∧
    (cands.length = 100 → (applyFirstPickBias cands true).length = 30) ∧
    (∀ x ∈ applyFirstPickBias cands true,
      ∀ y ∈ (List.insertionSort weightDescOrder cands).drop
          ((⌈(cands.length : ℚ) * config.selection.firstPickTopPercentile⌉).toNat),
        y.weight ≤ x.weight) := by
  set k := (⌈(cands.length : ℚ) * config.selection.firstPickTopPercentile⌉).toNat
    with hk
  have hbias : applyFirstPickBias cands true =
      (List.insertionSort weightDescOrder cands).take k := by
    unfold applyFirstPickBias
    rw [if_pos ⟨rfl, h⟩]
  have hkn : k ≤ cands.length := by
    rw [hk]
    have h1 : ⌈(cands.length : ℚ) * config.selection.firstPickTopPercentile⌉ ≤
        (cands.length : ℤ) := by
      apply Int.ceil_le.mpr
      push_cast
      have h0 : (0 : ℚ) ≤ (cands.length : ℚ) := by positivity
      simp only [config.selection.firstPickTopPercentile]
      nlinarith
    exact Int.toNat_le.mpr h1
  have hlen : (applyFirstPickBias cands true).length = k := by
    rw [hbias, List.length_take, List.length_insertionSort]
    omega
  refine ⟨hlen, ?_, ?_⟩
  · intro h100
    rw [hlen, hk, h100]
    rw [show ((100 : ℕ) : ℚ) * config.selection.firstPickTopPercentile =
        ((30 : ℤ) : ℚ) by norm_num [config.selection.firstPickTopPercentile]]
    rw [Int.ceil_intCast]
    rfl
  · intro x hx y hy
    rw [hbias] at hx
    exact (List.sorted_insertionSort weightDescOrder cands).rel_of_mem_take_of_mem_drop
      hx hy

/-- Witness for C7: eleven candidates survive the threshold and the stage
keeps ceil(11 * 0.3) = 4 of them. -/
theorem applyFirstPickBias_top_percentile_witness :
    10 < elevenCands.length ∧ (applyFirstPickBias elevenCands true).length = 4 := by
  have h : 10 < elevenCands.length := by simp [elevenCands]
  refine ⟨h, ?_⟩
  rw [(applyFirstPickBias_top_percentile elevenCands h).1]
  simp only [elevenCands, List.length_replicate]
  rw [show ((11 : ℕ) : ℚ) * config.selection.firstPickTopPercentile =
      (33 / 10 : ℚ) by norm_num [config.selection.firstPickTopPercentile]]
  have hc : ⌈(33 / 10 : ℚ)⌉ = 4 := by
    rw [Int.ceil_eq_iff]
    norm_num
  rw [hc]
  rfl

lemma pickMovie_some_elim {db : DB} {sid : String} {filters : PickFilters}
    {r : ℝ} {m : Movie} {db' : DB}
    (h : pickMovie db sid filters r = (some m, db')) :
    ∃ selected : WeightedCandidate,
      selected.movie ∈ getCandidateMovies db filters (getRecentPickMovieIds db sid) ∧
      m = toMovie selected.movie selected.genres ∧
      db' = recordPick db sid selected.movie.id filters := by
  simp only [pickMovie] at h
  split at h
  · simp at h
  · split at h
    · simp at h
    · rename_i selected heq
      simp only [Prod.mk.injEq, Option.some.injEq] at h
      obtain ⟨hm, hdb⟩ := h
      have hmem := applyFirstPickBias_mem (weightedRandomSelect_mem heq)
      obtain ⟨movie, hmovie, hsel_eq⟩ := List.mem_map.1 hmem
      refine ⟨selected, ?_, hm.symm, hdb.symm⟩
      rw [← hsel_eq]
      exact hmovie

lemma pickMovie_none_elim {db : DB} {sid : String} {filters : PickFilters}
    {r : ℝ} {db' : DB}
    (h : pickMovie db sid filters r = (none, db')) : db' = db := by
  simp only [pickMovie] at h
  split at h
  · simp at h
    exact h.symm
  · split at h
    · simp at h
      exact h.symm
    · simp at h

lemma pickMovie_of_no_candidates {db : DB} {sid : String} {filters : PickFilters}
    (r : ℝ)
    (h : getCandidateMovies db filters (getRecentPickMovieIds db sid) = []) :
    pickMovie db sid filters r = (none, db) := by
  simp only [pickMovie, h]
  norm_num

lemma pickMovie_db1_eval :
    pickMovie db1 "s" {} 0 = (some (toMovie row1 []), recordPick db1 "s" 1 {}) := by
  have hrec : getRecentPickMovieIds db1 "s" = [] := rfl
  have hgen : getMoviesGenres db1 [row1.id] row1.id = [] := rfl
  have hfirst : isFirstPickForSession db1 "s" = true := rfl
  have hw : (0 : ℝ) ≤ calculateWeight row1 :=
    calculateWeight_nonneg (by norm_num [row1])
  simp only [pickMovie, hrec, getCandidateMovies_db1]
  rw [if_neg (by simp)]
  simp only [List.map_cons, List.map_nil, hgen, hfirst]
  rw [applyFirstPickBias_of_le_ten (by simp)]
  rw [weightedRandomSelect_zero_draw ⟨row1, calculateWeight row1, []⟩ [] hw]
  rfl

/-- C3: a successful single pick never returns a movie whose id is in the
most-recent-N exclusion set fetched for the session at the start of the
call. -/
theorem pickMovie_respects_exclusions (db : DB) (sid : String)
    (filters : PickFilters) (r : ℝ) (m : Movie) (db' : DB)
    (h : pickMovie db sid filters r = (some m, db')) :
    m.id ∉ getRecentPickMovieIds db sid := by
  obtain ⟨selected, hmem, hm, -⟩ := pickMovie_some_elim h
  have hcond : candidateCond filters (getRecentPickMovieIds db sid) db
      selected.movie = true :=
    List.of_mem_filter (List.mem_of_mem_take hmem)
  rw [hm]
  exact candidateCond_not_excluded hcond

/-- Witness for C3: a concrete successful pick whose returned id avoids the
(here empty) exclusion set. -/
theorem pickMovie_respects_exclusions_witness :
    pickMovie db1 "s" {} 0 = (some (toMovie row1 []), recordPick db1 "s" 1 {}) ∧
    (toMovie row1 []).id ∉ getRecentPickMovieIds db1 "s" :=
  ⟨pickMovie_db1_eval,
   pickMovie_respects_exclusions db1 "s" {} 0 (toMovie row1 [])
     (recordPick db1 "s" 1 {}) pickMovie_db1_eval⟩

/-- C5: a successful single pick appends exactly one pick record, carrying
the returned movie's id, the session id and the filters passed in; an
unsuccessful pick leaves the database untouched — so the write happens only
after a successful sample, once per call. -/
theorem pickMovie_single_record (db : DB) (sid : String)
    (filters : PickFilters) (r : ℝ) :
    (∀ m db', pickMovie db sid filters r = (some m, db') →
      db'.user_picks =
        { session_id := sid, movie_id := m.id, filters := filters } ::
          db.user_picks) ∧
    (∀ db', pickMovie db sid filters r = (none, db') → db' = db) := by
  constructor
  · intro m db' h
    obtain ⟨selected, -, hm, hdb⟩ := pickMovie_some_elim h
    rw [hdb, hm]
    rfl
  · intro db' h
    exact pickMovie_none_elim h

/-- Witness for C5: the concrete successful pick of db1 appends exactly the
expected record. -/
theorem pickMovie_single_record_witness :
    pickMovie db1 "s" {} 0 = (some (toMovie row1 []), recordPick db1 "s" 1 {}) ∧
    (recordPick db1 "s" 1 {}).user_picks =
      { session_id := "s", movie_id := (toMovie row1 []).id, filters := {} } ::
        db1.user_picks :=
  ⟨pickMovie_db1_eval,
   (pickMovie_single_record db1 "s" {} 0).1 (toMovie row1 [])
     (recordPick db1 "s" 1 {}) pickMovie_db1_eval⟩

/-- C6: when the candidate fetch is empty, a validated pick request gets a
200 reply with a null movie and the fixed non-empty no-match message, the
database is unchanged (no pick record), and the outcome is a defined reply,
not a failure. -/
theorem pickHandler_no_match (db : DB) (req : PickRequest) (r : ℝ)
    (hlen1 : 1 ≤ req.sessionId.length) (hlen2 : req.sessionId.length ≤ 255)
    (hmin : ∀ d, req.filters.minDuration = some d → 60 ≤ d)
    (hmax : ∀ d, req.filters.maxDuration = some d → 60 ≤ d)
    (hempty : getCandidateMovies db req.filters
      (getRecentPickMovieIds db req.sessionId) = []) :
    pickHandler db req r = .reply200
      ⟨none, some "No movies match your criteria. Try broader filters."⟩ db ∧
    "No movies match your criteria. Try broader filters." ≠ "" := by
  refine ⟨?_, by decide⟩
  have hb1 : (match req.filters.minDuration with
              | some d => decide (d < 60)
              | none => false) = false := by
    cases hmd : req.filters.minDuration with
    | none => rfl
    | some d =>
      simp only []
      exact decide_eq_false (by have := hmin d hmd; omega)
  have hb2 : (match req.filters.maxDuration with
              | some d => decide (d < 60)
              | none => false) = false := by
    cases hmd : req.filters.maxDuration with
    | none => rfl
    | some d =>
      simp only []
      exact decide_eq_false (by have := hmax d hmd; omega)
  unfold pickHandler
  rw [if_neg (by omega), hb1, hb2]
  simp only [Bool.false_eq_true, if_false]
  rw [pickMovie_of_no_candidates r hempty]

/-- Witness for C6: the empty database matches no request, and the handler
replies with the null movie and the no-match message. -/
theorem pickHandler_no_match_witness :
    1 ≤ ("s" : String).length ∧ ("s" : String).length ≤ 255 ∧
    getCandidateMovies db0 ({} : PickFilters) (getRecentPickMovieIds db0 "s") = [] ∧
    pickHandler db0 ⟨"s", {}⟩ 0 = .reply200
      ⟨none, some "No movies match your criteria. Try broader filters."⟩ db0 :=
  ⟨by decide, by decide, rfl,
   (pickHandler_no_match db0 ⟨"s", {}⟩ 0 (by decide) (by decide)
     (fun d hd => by simp at hd) (fun d hd => by simp at hd) rfl).1⟩

/-- C8: for any shuffle the runtime may produce (any permutation of the
fetched pool), a batch browse call returns exactly min(limit, poolSize)
movies with pairwise-distinct ids, each backed by a catalog row satisfying
the assembled candidate predicate (caller filters, floors and exclusions),
and leaves the database unchanged — no pick record is ever written. -/
theorem candidatesHandler_batch_spec (db : DB) (req : CandidatesRequest)
    (shuffle : List MovieRow → List MovieRow)
    (hshuffle :
      (shuffle (getCandidateMovies db req.filters (candidatesExcludeIds db req))).Perm
        (getCandidateMovies db req.filters (candidatesExcludeIds db req)))
    (hids : (db.movies.map (fun mv => mv.id)).Nodup) :
    (candidatesHandler db req shuffle).1.length =
      min (req.limit.getD 30)
        (getCandidateMovies db req.filters (candidatesExcludeIds db req)).length ∧
    ((candidatesHandler db req shuffle).1.map (fun mv => mv.id)).Nodup ∧
    (∀ mv ∈ (candidatesHandler db req shuffle).1,
      ∃ row ∈ db.movies,
        candidateCond req.filters (candidatesExcludeIds db req) db row = true ∧
        mv.id = row.id) ∧
    (candidatesHandler db req shuffle).2 = db := by
  by_cases h0 :
      (getCandidateMovies db req.filters (candidatesExcludeIds db req)).length = 0
  · have hres : candidatesHandler db req shuffle = ([], db) := by
      simp only [candidatesHandler]
      rw [if_pos h0]
    rw [hres]
    refine ⟨?_, by simp, by simp, rfl⟩
    simp [h0]
  · have hres : candidatesHandler db req shuffle =
        (((shuffle (getCandidateMovies db req.filters (candidatesExcludeIds db req))).take
            (min (req.limit.getD 30)
              (shuffle (getCandidateMovies db req.filters
                (candidatesExcludeIds db req))).length)).map
          (fun movie => toMovie movie
            (getMoviesGenres db
              (((shuffle (getCandidateMovies db req.filters
                  (candidatesExcludeIds db req))).take
                  (min (req.limit.getD 30)
                    (shuffle (getCandidateMovies db req.filters
                      (candidatesExcludeIds db req))).length)).map
                (fun mv => mv.id)) movie.id)), db) := by
      simp only [candidatesHandler]
      rw [if_neg h0]
    have hsub : List.Sublist
        (getCandidateMovies db req.filters (candidatesExcludeIds db req))
        db.movies := by
      unfold getCandidateMovies
      exact (List.take_sublist _ _).trans (List.filter_sublist _)
    have hlen : (shuffle (getCandidateMovies db req.filters
        (candidatesExcludeIds db req))).length =
        (getCandidateMovies db req.filters (candidatesExcludeIds db req)).length :=
      hshuffle.length_eq
    refine ⟨?_, ?_, ?_, by rw [hres]⟩
    · rw [hres]
      simp only [List.length_map, List.length_take]
      omega
    · rw [hres]
      rw [List.map_map]
      have nd1 : ((getCandidateMovies db req.filters
          (candidatesExcludeIds db req)).map (fun r => r.id)).Nodup :=
        hids.sublist (hsub.map _)
      exact (((hshuffle.map _).nodup_iff).mpr nd1).sublist
        ((List.take_sublist _ _).map _)
    · rw [hres]
      intro mv hmv
      obtain ⟨row, hrow, rfl⟩ := List.mem_map.1 hmv
      have hrow2 : row ∈ getCandidateMovies db req.filters
          (candidatesExcludeIds db req) :=
        hshuffle.mem_iff.mp (List.mem_of_mem_take hrow)
      have hrow3 : row ∈ db.movies.filter
          (candidateCond req.filters (candidatesExcludeIds db req) db) :=
        List.mem_of_mem_take hrow2
      exact ⟨row, List.mem_of_mem_filter hrow3, List.of_mem_filter hrow3, rfl⟩

/-- Witness for C8: the identity shuffle on db1 with limit 5 returns
min(5, 1) = 1 movie. -/
theorem candidatesHandler_batch_spec_witness :
    (id (getCandidateMovies db1 ({} : PickFilters)
      (candidatesExcludeIds db1 { filters := {}, limit := some 5 }))).Perm
        (getCandidateMovies db1 ({} : PickFilters)
          (candidatesExcludeIds db1 { filters := {}, limit := some 5 })) ∧
    (db1.movies.map (fun mv => mv.id)).Nodup ∧
    (candidatesHandler db1 { filters := {}, limit := some 5 } id).1.length =
      min 5 (getCandidateMovies db1 ({} : PickFilters)
        (candidatesExcludeIds db1 { filters := {}, limit := some 5 })).length :=
  ⟨List.Perm.refl _, by simp [db1],
   (candidatesHandler_batch_spec db1 { filters := {}, limit := some 5 } id
     (List.Perm.refl _) (by simp [db1])).1⟩

end MuseDB
